import Mathlib

/-!
Shallow embedding of the SOLID expression-tree repository
(src/modules/arithmetic.js, the validation and print modules in
src/unnamed/part_001, the utils isNumber predicate and the composition
root in src/unnamed/part_000).

Modelling conventions:
* JavaScript numbers are modelled by `JSNum`: a finite number carries an
  exact rational (an idealisation of the IEEE double mantissa; every
  concrete value exercised by the repository's trees is a small integer,
  where the idealisation is exact), plus NaN and the two infinities.
* A thrown exception is an `Except.error` carrying a `JsError`:
  `errorMsg m` models `throw new Error(m)`, `typeError` models the
  runtime TypeError raised when a missing or non-callable property is
  invoked.
* An argument passed to a binary constructor is an `Operand`: either a
  primitive, or an object whose `result` property is absent, present but
  falsy, present and truthy but not callable, or a callable closure, and
  whose `toString` is the inherited Object.prototype default, an own
  non-callable property, or a callable closure.  This is exactly the
  granularity the optional-chaining truthiness probe
  `!left?.result || !right?.result` and the later method calls
  distinguish.
* A node returned by a constructor is a `NodeObj`: the pair of closures
  `{ result, toString }` the factories build.  Per the repository's
  IResultable/IPrintable interfaces, `result` returns a JS number and
  `toString` a string.
-/

namespace SolidAst

/-- A JavaScript number: finite (exact rational idealisation), NaN or an
infinity. -/
inductive JSNum where
  | fin (q : ℚ)
  | nan
  | inf
  | negInf
deriving DecidableEq

/-- JS number-to-string coercion.  Integers print as decimal numerals,
which is all the repository ever renders; a non-integral rational uses
the `num/den` form as an abstract stand-in for JS shortest-roundtrip
decimal formatting (never exercised by the claims). -/
def jsNumToString : JSNum → String
  | .fin q => if q.den = 1 then toString q.num else toString q
  | .nan => "NaN"
  | .inf => "Infinity"
  | .negInf => "-Infinity"

/-- A primitive JavaScript value, as can be passed to the literal
constructor. -/
inductive JSVal where
  | num (n : JSNum)
  | str (s : String)
  | boolean (b : Bool)
  | nullV
  | undef
deriving DecidableEq

/-- Template-literal string coercion of a primitive value. -/
def jsValToString : JSVal → String
  | .num n => jsNumToString n
  | .str s => s
  | .boolean b => if b then "true" else "false"
  | .nullV => "null"
  | .undef => "undefined"

/-- A thrown JavaScript exception. -/
inductive JsError where
  | errorMsg (msg : String)
  | typeError
deriving DecidableEq

/-- utils isNumber (src/unnamed/part_000):
`typeof value === "number" && Number.isFinite(value)`.
NaN and the infinities have typeof "number" but are not finite. -/
def isNumber : JSVal → Bool
  | .num (.fin _) => true
  | _ => false

/-- The `result` property slot of an object passed as an operand:
absent, present but falsy (e.g. `result: 0`), present and truthy but not
callable (e.g. `result: 1`), or a callable closure (whose call may throw,
modelled by `Except.error`). -/
inductive ResultProp where
  | absent
  | falsyVal
  | truthyNonFn
  | fn (f : Unit → Except JsError JSNum)

/-- The `toString` behaviour of an object passed as an operand: the
inherited Object.prototype default, an own non-callable property (calling
it throws a TypeError), or a callable closure. -/
inductive ToStrProp where
  | inherited
  | nonFn
  | fn (f : Unit → Except JsError String)

/-- A JavaScript value passed as `left`/`right` to a binary constructor. -/
inductive Operand where
  | str (s : String)
  | num (n : JSNum)
  | boolean (b : Bool)
  | nullV
  | undef
  | obj (res : ResultProp) (toStr : ToStrProp)

/-- A node object `{ result, toString }` as returned by the factories. -/
structure NodeObj where
  res : Unit → Except JsError JSNum
  toStr : Unit → Except JsError String

/-- A constructed node used as an operand: an object whose `result` and
`toString` own properties are the two closures. -/
def NodeObj.toOperand (n : NodeObj) : Operand := .obj (.fn n.res) (.fn n.toStr)

/-- The JS method call `operand.result()`: invokes the closure when the
property is a callable function, otherwise throws a TypeError (property
missing, primitive receiver, or non-callable value). -/
def callResult : Operand → Except JsError JSNum
  | .obj (.fn f) _ => f ()
  | _ => .error .typeError

/-- The JS method call `operand.toString()`: objects fall back to the
inherited `"[object Object]"` default; strings, numbers and booleans have
their primitive toString; calling on null/undefined or through an own
non-callable property throws. -/
def callToString : Operand → Except JsError String
  | .obj _ (.fn f) => f ()
  | .obj _ .inherited => .ok "[object Object]"
  | .obj _ .nonFn => .error .typeError
  | .str s => .ok s
  | .num n => .ok (jsNumToString n)
  | .boolean b => .ok (if b then "true" else "false")
  | .nullV => .error .typeError
  | .undef => .error .typeError

/-- Truthiness of `operand?.result`, the probe used by
validateExpression: primitives and null/undefined yield undefined
(falsy); objects yield the property value, truthy exactly when present
and not falsy. -/
def hasTruthyResult : Operand → Bool
  | .obj .absent _ => false
  | .obj .falsyVal _ => false
  | .obj .truthyNonFn _ => true
  | .obj (.fn _) _ => true
  | _ => false

/-- JS `+` on numbers. -/
def jsAdd : JSNum → JSNum → JSNum
  | .nan, _ => .nan
  | _, .nan => .nan
  | .inf, .negInf => .nan
  | .negInf, .inf => .nan
  | .inf, _ => .inf
  | _, .inf => .inf
  | .negInf, _ => .negInf
  | _, .negInf => .negInf
  | .fin a, .fin b => .fin (a + b)

/-- JS unary negation on numbers. -/
def jsNeg : JSNum → JSNum
  | .fin q => .fin (-q)
  | .nan => .nan
  | .inf => .negInf
  | .negInf => .inf

/-- JS `-` on numbers (subtraction is addition of the negation). -/
def jsSub (a b : JSNum) : JSNum := jsAdd a (jsNeg b)

/-- JS `*` on numbers. -/
def jsMul : JSNum → JSNum → JSNum
  | .nan, _ => .nan
  | _, .nan => .nan
  | .inf, .inf => .inf
  | .inf, .negInf => .negInf
  | .negInf, .inf => .negInf
  | .negInf, .negInf => .inf
  | .inf, .fin q => if q = 0 then .nan else if 0 < q then .inf else .negInf
  | .fin q, .inf => if q = 0 then .nan else if 0 < q then .inf else .negInf
  | .negInf, .fin q => if q = 0 then .nan else if 0 < q then .negInf else .inf
  | .fin q, .negInf => if q = 0 then .nan else if 0 < q then .negInf else .inf
  | .fin a, .fin b => .fin (a * b)

/-- JS `/` on numbers (negative zero is not modelled; no claim exercises
it). -/
def jsDiv : JSNum → JSNum → JSNum
  | .nan, _ => .nan
  | _, .nan => .nan
  | .inf, .inf => .nan
  | .inf, .negInf => .nan
  | .negInf, .inf => .nan
  | .negInf, .negInf => .nan
  | .inf, .fin q => if 0 ≤ q then .inf else .negInf
  | .negInf, .fin q => if 0 ≤ q then .negInf else .inf
  | .fin _, .inf => .fin 0
  | .fin _, .negInf => .fin 0
  | .fin a, .fin b =>
      if b = 0 then (if a = 0 then .nan else if 0 < a then .inf else .negInf)
      else .fin (a / b)

/-- Message of the InvalidLiteral error thrown by validateValue. -/
def invalidLiteralMsg (value : JSVal) : String :=
  "The value \"" ++ jsValToString value ++ "\" is not a numerical value!"

/-- Message of the MissingOperand error thrown by validateExpression. -/
def missingOperandMsg (operation : String) : String :=
  "The operation \"" ++ operation ++ "\" is missing an operand!"

/-- Message of the ZeroDivisor error thrown by validateDivide. -/
def zeroDivisorMsg (rendered : String) : String :=
  "The right-hand side operand \"" ++ rendered ++ "\" for Divide must be non-zero!"

/-- validation module (src/unnamed/part_001): validateValue throws when
isNumber rejects the value. -/
def validateValue (value : JSVal) : Except JsError Unit :=
  if isNumber value then Except.ok ()
  else Except.error (.errorMsg (invalidLiteralMsg value))

/-- validation module: validateExpression throws MissingOperand when
`!left?.result || !right?.result`. -/
def validateExpression (left right : Operand) (operation : String) :
    Except JsError Unit :=
  if !hasTruthyResult left || !hasTruthyResult right then
    Except.error (.errorMsg (missingOperandMsg operation))
  else
    Except.ok ()

/-- validation module: validateDivide first runs validateExpression, then
evaluates `right.result()` eagerly and, when it is strictly equal to the
number 0, renders `right.toString()` into the ZeroDivisor message. -/
def validateDivide (left right : Operand) (operation : String) :
    Except JsError Unit := do
  validateExpression left right operation
  let r ← callResult right
  if r = .fin 0 then
    let rendered ← callToString right
    Except.error (.errorMsg (zeroDivisorMsg rendered))
  else
    Except.ok ()

/-- print module (src/unnamed/part_001): printValue is the template
coercion of the value. -/
def printValue (value : JSVal) : String := jsValToString value

/-- print module: printExpression calls `left.toString()` then
`right.toString()` and parenthesises them around the operation symbol. -/
def printExpression (left right : Operand) (operation : String) :
    Except JsError String := do
  let l ← callToString left
  let r ← callToString right
  Except.ok ("(" ++ l ++ " " ++ operation ++ " " ++ r ++ ")")

/-- arithmetic.js makeValue: validate, then return the closure pair.  The
`result` slot is typed as a JS number per the IResultable interface; the
only validator injected by the repository is validateValue, which
guarantees the value is a (finite) number, so the fallback branch is
unreachable in every instantiation the repository makes. -/
def makeValue (validate : JSVal → Except JsError Unit)
    (toStr : JSVal → String) (value : JSVal) : Except JsError NodeObj := do
  validate value
  match value with
  | .num n => Except.ok ⟨fun _ => .ok n, fun _ => .ok (toStr value)⟩
  | _ => Except.error .typeError

/-- arithmetic.js makeAdd: operation "+", validate, then the closure pair
with `result` evaluating left then right. -/
def makeAdd (validate : Operand → Operand → String → Except JsError Unit)
    (toStr : Operand → Operand → String → Except JsError String)
    (left right : Operand) : Except JsError NodeObj := do
  validate left right "+"
  Except.ok ⟨fun _ => do
      let a ← callResult left
      let b ← callResult right
      Except.ok (jsAdd a b),
    fun _ => toStr left right "+"⟩

/-- arithmetic.js makeSubtract: operation "-". -/
def makeSubtract (validate : Operand → Operand → String → Except JsError Unit)
    (toStr : Operand → Operand → String → Except JsError String)
    (left right : Operand) : Except JsError NodeObj := do
  validate left right "-"
  Except.ok ⟨fun _ => do
      let a ← callResult left
      let b ← callResult right
      Except.ok (jsSub a b),
    fun _ => toStr left right "-"⟩

/-- arithmetic.js makeMultiply: operation "x" (lowercase letter x). -/
def makeMultiply (validate : Operand → Operand → String → Except JsError Unit)
    (toStr : Operand → Operand → String → Except JsError String)
    (left right : Operand) : Except JsError NodeObj := do
  validate left right "x"
  Except.ok ⟨fun _ => do
      let a ← callResult left
      let b ← callResult right
      Except.ok (jsMul a b),
    fun _ => toStr left right "x"⟩

/-- arithmetic.js makeDivide: operation "÷" (Unicode division sign),
validated by the injected divide-specific validator. -/
def makeDivide (validate : Operand → Operand → String → Except JsError Unit)
    (toStr : Operand → Operand → String → Except JsError String)
    (left right : Operand) : Except JsError NodeObj := do
  validate left right "÷"
  Except.ok ⟨fun _ => do
      let a ← callResult left
      let b ← callResult right
      Except.ok (jsDiv a b),
    fun _ => toStr left right "÷"⟩

/-- Composition root (src/unnamed/part_000): Value = makeValue
instantiated with validateValue and printValue. -/
def Value : JSVal → Except JsError NodeObj := makeValue validateValue printValue

/-- Composition root: Add = makeAdd with validateExpression and
printExpression. -/
def Add : Operand → Operand → Except JsError NodeObj :=
  makeAdd validateExpression printExpression

/-- Composition root: Subtract. -/
def Subtract : Operand → Operand → Except JsError NodeObj :=
  makeSubtract validateExpression printExpression

/-- Composition root: Multiply. -/
def Multiply : Operand → Operand → Except JsError NodeObj :=
  makeMultiply validateExpression printExpression

/-- Composition root: Divide = makeDivide with validateDivide. -/
def Divide : Operand → Operand → Except JsError NodeObj :=
  makeDivide validateDivide printExpression

/-- The tree built by the composition root:
Divide(Add(Value(7), Multiply(Subtract(Value(3), Value(2)), Value(5))), Value(6)). -/
def exampleTree : Except JsError NodeObj := do
  let v7 ← Value (.num (.fin 7))
  let v3 ← Value (.num (.fin 3))
  let v2 ← Value (.num (.fin 2))
  let s ← Subtract v3.toOperand v2.toOperand
  let v5 ← Value (.num (.fin 5))
  let m ← Multiply s.toOperand v5.toOperand
  let a ← Add v7.toOperand m.toOperand
  let v6 ← Value (.num (.fin 6))
  Divide a.toOperand v6.toOperand

/-- tree.result() of the composition-root tree. -/
def treeResult : Except JsError JSNum := do
  let t ← exampleTree
  t.res ()

/-- tree.toString() of the composition-root tree. -/
def treeRender : Except JsError String := do
  let t ← exampleTree
  t.toStr ()

/-- `x.result()` called on the outcome of a constructor: a thrown
construction error propagates, otherwise the node's result closure runs. -/
def resultOf (x : Except JsError NodeObj) : Except JsError JSNum :=
  match x with
  | .ok n => n.res ()
  | .error e => .error e

/-- `x.toString()` called on the outcome of a constructor. -/
def renderOf (x : Except JsError NodeObj) : Except JsError String :=
  match x with
  | .ok n => n.toStr ()
  | .error e => .error e

/-- A concrete well-behaved node (evaluates to 6, renders "6"), used to
instantiate witnesses. -/
def nodeSix : NodeObj := ⟨fun _ => .ok (.fin 6), fun _ => .ok "6"⟩

/-- A concrete well-behaved node (evaluates to 3, renders "3"), used to
instantiate witnesses. -/
def nodeThree : NodeObj := ⟨fun _ => .ok (.fin 3), fun _ => .ok "3"⟩

/-- Claim C5: for every finite numeric v, Literal(v) constructs
successfully, evaluates to exactly v, and renders the JS string form of
v. -/
theorem literal_evaluates_and_renders (q : ℚ) :
    ∃ n, Value (.num (.fin q)) = Except.ok n ∧
      n.res () = .ok (.fin q) ∧
      n.toStr () = .ok (jsNumToString (.fin q)) := by
  refine ⟨⟨fun _ => .ok (.fin q), fun _ => .ok (jsNumToString (.fin q))⟩, ?_, rfl, rfl⟩
  simp [Value, makeValue, validateValue, isNumber, printValue, jsValToString,
    Bind.bind, Except.bind]

/-- Claim C7: Literal(v) fails with the InvalidLiteral error, whose
message names the offending value, exactly when v is not a finite
numeric value; non-number types, NaN and the infinities are all
rejected. -/
theorem literal_invalid_iff_not_finite_number (v : JSVal) :
    (Value v = Except.error (.errorMsg
        ("The value \"" ++ jsValToString v ++ "\" is not a numerical value!")) ↔
      isNumber v = false) ∧
    (isNumber v = false ↔ ∀ q : ℚ, v ≠ .num (.fin q)) := by
  constructor
  · cases hv : isNumber v with
    | true =>
      simp only [Value, makeValue, validateValue, hv, if_true, Bind.bind, Except.bind]
      cases v with
      | num n => simp
      | str s => simp [isNumber] at hv
      | boolean b => simp [isNumber] at hv
      | nullV => simp [isNumber] at hv
      | undef => simp [isNumber] at hv
    | false =>
      simp [Value, makeValue, validateValue, hv, invalidLiteralMsg, Bind.bind, Except.bind]
  · cases v with
    | num n => cases n <;> simp [isNumber]
    | str s => simp [isNumber]
    | boolean b => simp [isNumber]
    | nullV => simp [isNumber]
    | undef => simp [isNumber]

/-- Claim C8: the composition-root tree constructs successfully, renders
exactly "((7 + ((3 - 2) x 5)) ÷ 6)" and evaluates to exactly 2. -/
theorem example_tree_renders_and_evaluates :
    exampleTree.isOk = true ∧
    treeRender = Except.ok "((7 + ((3 - 2) x 5)) ÷ 6)" ∧
    treeResult = Except.ok (.fin 2) := by
  refine ⟨?_, ?_, ?_⟩
  · simp [exampleTree, Value, makeValue, validateValue, isNumber, Add, makeAdd,
      Subtract, makeSubtract, Multiply, makeMultiply, Divide, makeDivide,
      validateExpression, validateDivide, hasTruthyResult, NodeObj.toOperand, callResult,
      callToString, printValue, printExpression, jsValToString, jsNumToString,
      jsAdd, jsSub, jsNeg, jsMul, jsDiv, Bind.bind, Except.bind, Except.isOk, Except.toBool]
  · simp [treeRender, exampleTree, Value, makeValue, validateValue, isNumber, Add, makeAdd,
      Subtract, makeSubtract, Multiply, makeMultiply, Divide, makeDivide,
      validateExpression, validateDivide, hasTruthyResult, NodeObj.toOperand, callResult,
      callToString, printValue, printExpression, jsValToString, jsNumToString,
      jsAdd, jsSub, jsNeg, jsMul, jsDiv, Bind.bind, Except.bind]
    rfl
  · simp [treeResult, exampleTree, Value, makeValue, validateValue, isNumber, Add, makeAdd,
      Subtract, makeSubtract, Multiply, makeMultiply, Divide, makeDivide,
      validateExpression, validateDivide, hasTruthyResult, NodeObj.toOperand, callResult,
      callToString, printValue, printExpression, jsValToString, jsNumToString,
      jsAdd, jsSub, jsNeg, jsMul, jsDiv, Bind.bind, Except.bind]
    norm_num

/-- Calling result() on a node used as an operand reaches its closure. -/
theorem callResult_toOperand (n : NodeObj) : callResult n.toOperand = n.res () := rfl

/-- Calling toString() on a node used as an operand reaches its closure. -/
theorem callToString_toOperand (n : NodeObj) : callToString n.toOperand = n.toStr () := rfl

/-- Reduction of Add on node operands: validation passes (nodes expose a
callable result), and the factory's closure pair is returned. -/
theorem Add_on_nodes (l r : NodeObj) :
    Add l.toOperand r.toOperand = Except.ok
      ⟨fun _ => do
          let a ← callResult l.toOperand
          let b ← callResult r.toOperand
          Except.ok (jsAdd a b),
        fun _ => printExpression l.toOperand r.toOperand "+"⟩ := rfl

/-- Reduction of Subtract on node operands. -/
theorem Subtract_on_nodes (l r : NodeObj) :
    Subtract l.toOperand r.toOperand = Except.ok
      ⟨fun _ => do
          let a ← callResult l.toOperand
          let b ← callResult r.toOperand
          Except.ok (jsSub a b),
        fun _ => printExpression l.toOperand r.toOperand "-"⟩ := rfl

/-- Reduction of Multiply on node operands. -/
theorem Multiply_on_nodes (l r : NodeObj) :
    Multiply l.toOperand r.toOperand = Except.ok
      ⟨fun _ => do
          let a ← callResult l.toOperand
          let b ← callResult r.toOperand
          Except.ok (jsMul a b),
        fun _ => printExpression l.toOperand r.toOperand "x"⟩ := rfl

/-- Reduction of Divide on node operands whose divisor evaluates to a
value other than the number 0: the eager validateDivide check passes. -/
theorem Divide_on_nodes (l r : NodeObj) (b : JSNum)
    (hr : r.res () = Except.ok b) (hb : b ≠ .fin 0) :
    Divide l.toOperand r.toOperand = Except.ok
      ⟨fun _ => do
          let a ← callResult l.toOperand
          let b ← callResult r.toOperand
          Except.ok (jsDiv a b),
        fun _ => printExpression l.toOperand r.toOperand "÷"⟩ := by
  simp [Divide, makeDivide, validateDivide, validateExpression, hasTruthyResult,
    NodeObj.toOperand, callResult, hr, hb, Bind.bind, Except.bind]

/-- Claim C1: for valid nodes l and r (working result and toString closures),
Add(l, r) evaluates to l.evaluate() + r.evaluate(), and likewise for
Subtract, Multiply, and (when the divisor is not the number 0) Divide,
under the corresponding JS arithmetic operation. -/
theorem binary_nodes_evaluate_componentwise
    (l r : NodeObj) (a b : JSNum)
    (hl : l.res () = Except.ok a) (hr : r.res () = Except.ok b)
    (hls : (l.toStr ()).isOk = true) (hrs : (r.toStr ()).isOk = true) :
    (∃ n, Add l.toOperand r.toOperand = Except.ok n ∧
      n.res () = Except.ok (jsAdd a b)) ∧
    (∃ n, Subtract l.toOperand r.toOperand = Except.ok n ∧
      n.res () = Except.ok (jsSub a b)) ∧
    (∃ n, Multiply l.toOperand r.toOperand = Except.ok n ∧
      n.res () = Except.ok (jsMul a b)) ∧
    (b ≠ .fin 0 →
      ∃ n, Divide l.toOperand r.toOperand = Except.ok n ∧
        n.res () = Except.ok (jsDiv a b)) := by
  refine ⟨⟨_, Add_on_nodes l r, ?_⟩, ⟨_, Subtract_on_nodes l r, ?_⟩,
    ⟨_, Multiply_on_nodes l r, ?_⟩, fun hb => ⟨_, Divide_on_nodes l r b hr hb, ?_⟩⟩ <;>
    simp [callResult_toOperand, hl, hr, Bind.bind, Except.bind]

/-- Witness for C1 at the nodes 6 and 3. -/
theorem binary_nodes_evaluate_componentwise_at_six_three :
    (∃ n, Add nodeSix.toOperand nodeThree.toOperand = Except.ok n ∧
      n.res () = Except.ok (jsAdd (.fin 6) (.fin 3))) ∧
    (∃ n, Divide nodeSix.toOperand nodeThree.toOperand = Except.ok n ∧
      n.res () = Except.ok (jsDiv (.fin 6) (.fin 3))) :=
  ⟨(binary_nodes_evaluate_componentwise nodeSix nodeThree (.fin 6) (.fin 3)
      rfl rfl rfl rfl).1,
    (binary_nodes_evaluate_componentwise nodeSix nodeThree (.fin 6) (.fin 3)
      rfl rfl rfl rfl).2.2.2 (by norm_num)⟩

/-- A concrete node evaluating to 0 rendering "0", used to instantiate
witnesses. -/
def nodeZero : NodeObj := ⟨fun _ => .ok (.fin 0), fun _ => .ok "0"⟩

/-- Claim C2 fails on the code: a divisor with a working result closure
returning 0 but an own non-callable toString property passes operand
validation and evaluates to exactly 0, yet constructing Divide fails
with the TypeError raised by the right.toString() call inside the
message template, not with a ZeroDivisor error. -/
theorem divide_zero_check_needs_working_render :
    validateExpression nodeSix.toOperand (.obj (.fn fun _ => .ok (.fin 0)) .nonFn) "÷"
      = Except.ok () ∧
    callResult (.obj (.fn fun _ => .ok (.fin 0)) .nonFn) = Except.ok (.fin 0) ∧
    Divide nodeSix.toOperand (.obj (.fn fun _ => .ok (.fin 0)) .nonFn)
      = Except.error .typeError := by
  refine ⟨rfl, rfl, ?_⟩
  simp [Divide, makeDivide, validateDivide, validateExpression, hasTruthyResult,
    NodeObj.toOperand, callResult, callToString, Bind.bind, Except.bind]

/-- Claim C2 as amended: for operands that pass operand validation,
where the right operand evaluates to a value b and its toString returns
a string s, constructing Divide fails with the ZeroDivisor error exactly
when b is the number 0, and that error's message embeds the rendered
text s of the right operand (not just its numeric value). -/
theorem divide_fails_zero_divisor_iff
    (l r : Operand) (b : JSNum) (s : String)
    (hv : validateExpression l r "÷" = Except.ok ())
    (hb : callResult r = Except.ok b)
    (hs : callToString r = Except.ok s) :
    (Divide l r = Except.error (.errorMsg (zeroDivisorMsg s)) ↔ b = .fin 0) ∧
    zeroDivisorMsg s =
      "The right-hand side operand \"" ++ s ++ "\" for Divide must be non-zero!" := by
  refine ⟨?_, rfl⟩
  by_cases hb0 : b = .fin 0
  · subst hb0
    simp [Divide, makeDivide, validateDivide, hv, hb, hs, Bind.bind, Except.bind]
  · simp [Divide, makeDivide, validateDivide, hv, hb, hs, hb0, Bind.bind, Except.bind]

/-- Witness for C2: dividing by the zero literal node fails with the
ZeroDivisor message embedding "0". -/
theorem divide_fails_zero_divisor_at_zero :
    Divide nodeSix.toOperand nodeZero.toOperand =
      Except.error (.errorMsg (zeroDivisorMsg "0")) :=
  (divide_fails_zero_divisor_iff nodeSix.toOperand nodeZero.toOperand
    (.fin 0) "0" rfl rfl rfl).1.mpr rfl

/-- Any node Add returns carries the factory's two closures. -/
theorem Add_ok_shape (l r : Operand) (n : NodeObj)
    (h : Add l r = Except.ok n) :
    n = ⟨fun _ => do
        let a ← callResult l
        let b ← callResult r
        Except.ok (jsAdd a b),
      fun _ => printExpression l r "+"⟩ := by
  unfold Add makeAdd at h
  cases hv : validateExpression l r "+" with
  | ok u =>
    cases u
    simp only [hv, Bind.bind, Except.bind, Except.ok.injEq] at h
    exact h.symm
  | error e => simp [hv, Bind.bind, Except.bind] at h

/-- Any node Subtract returns carries the factory's two closures. -/
theorem Subtract_ok_shape (l r : Operand) (n : NodeObj)
    (h : Subtract l r = Except.ok n) :
    n = ⟨fun _ => do
        let a ← callResult l
        let b ← callResult r
        Except.ok (jsSub a b),
      fun _ => printExpression l r "-"⟩ := by
  unfold Subtract makeSubtract at h
  cases hv : validateExpression l r "-" with
  | ok u =>
    cases u
    simp only [hv, Bind.bind, Except.bind, Except.ok.injEq] at h
    exact h.symm
  | error e => simp [hv, Bind.bind, Except.bind] at h

/-- Any node Multiply returns carries the factory's two closures. -/
theorem Multiply_ok_shape (l r : Operand) (n : NodeObj)
    (h : Multiply l r = Except.ok n) :
    n = ⟨fun _ => do
        let a ← callResult l
        let b ← callResult r
        Except.ok (jsMul a b),
      fun _ => printExpression l r "x"⟩ := by
  unfold Multiply makeMultiply at h
  cases hv : validateExpression l r "x" with
  | ok u =>
    cases u
    simp only [hv, Bind.bind, Except.bind, Except.ok.injEq] at h
    exact h.symm
  | error e => simp [hv, Bind.bind, Except.bind] at h

/-- Any node Divide returns carries the factory's two closures. -/
theorem Divide_ok_shape (l r : Operand) (n : NodeObj)
    (h : Divide l r = Except.ok n) :
    n = ⟨fun _ => do
        let a ← callResult l
        let b ← callResult r
        Except.ok (jsDiv a b),
      fun _ => printExpression l r "÷"⟩ := by
  unfold Divide makeDivide at h
  cases hv : validateDivide l r "÷" with
  | ok u =>
    cases u
    simp only [hv, Bind.bind, Except.bind, Except.ok.injEq] at h
    exact h.symm
  | error e => simp [hv, Bind.bind, Except.bind] at h

/-- Claim C4 fails on the code: an operand whose result property is truthy but
not callable passes validateExpression, Add then returns a node, and
evaluating that node raises a TypeError — an error raised at evaluation
time on a successfully constructed node whose arguments passed
validation. -/
theorem passing_validation_does_not_protect_evaluation :
    validateExpression (.obj .truthyNonFn .inherited) (.obj .truthyNonFn .inherited) "+"
      = Except.ok () ∧
    (Add (.obj .truthyNonFn .inherited) (.obj .truthyNonFn .inherited)).isOk = true ∧
    resultOf (Add (.obj .truthyNonFn .inherited) (.obj .truthyNonFn .inherited)) =
      Except.error .typeError :=
  ⟨rfl, rfl, rfl⟩

/-- Claim C4 as amended: for operands whose own evaluate and render invocations
return normally (genuine working nodes), every successfully constructed
node evaluates and renders without raising, and a successfully
constructed Divide node's divisor re-evaluates to a non-zero number (the
eager construction-time check agrees with the lazy re-evaluation of the
same closure). -/
theorem constructed_nodes_evaluate_and_render
    (l r : NodeObj) (a b : JSNum) (s t : String)
    (hl : l.res () = Except.ok a) (hr : r.res () = Except.ok b)
    (hls : l.toStr () = Except.ok s) (hrs : r.toStr () = Except.ok t) :
    (∀ n, Add l.toOperand r.toOperand = Except.ok n →
      (n.res ()).isOk = true ∧ (n.toStr ()).isOk = true) ∧
    (∀ n, Subtract l.toOperand r.toOperand = Except.ok n →
      (n.res ()).isOk = true ∧ (n.toStr ()).isOk = true) ∧
    (∀ n, Multiply l.toOperand r.toOperand = Except.ok n →
      (n.res ()).isOk = true ∧ (n.toStr ()).isOk = true) ∧
    (∀ n, Divide l.toOperand r.toOperand = Except.ok n →
      b ≠ .fin 0 ∧ (n.res ()).isOk = true ∧ (n.toStr ()).isOk = true) := by
  refine ⟨?_, ?_, ?_, ?_⟩
  · intro n h
    rw [Add_ok_shape _ _ _ h]
    constructor <;>
      simp [callResult_toOperand, callToString_toOperand, printExpression,
        hl, hr, hls, hrs, Bind.bind, Except.bind, Except.isOk, Except.toBool]
  · intro n h
    rw [Subtract_ok_shape _ _ _ h]
    constructor <;>
      simp [callResult_toOperand, callToString_toOperand, printExpression,
        hl, hr, hls, hrs, Bind.bind, Except.bind, Except.isOk, Except.toBool]
  · intro n h
    rw [Multiply_ok_shape _ _ _ h]
    constructor <;>
      simp [callResult_toOperand, callToString_toOperand, printExpression,
        hl, hr, hls, hrs, Bind.bind, Except.bind, Except.isOk, Except.toBool]
  · intro n h
    have hb : b ≠ .fin 0 := by
      intro hb0
      subst hb0
      have hdiv : Divide l.toOperand r.toOperand =
          Except.error (.errorMsg (zeroDivisorMsg t)) := by
        simp [Divide, makeDivide, validateDivide, validateExpression,
          hasTruthyResult, NodeObj.toOperand, callResult, callToString,
          hr, hrs, Bind.bind, Except.bind]
      rw [hdiv] at h
      exact Except.noConfusion h
    rw [Divide_ok_shape _ _ _ h]
    refine ⟨hb, ?_, ?_⟩ <;>
      simp [callResult_toOperand, callToString_toOperand, printExpression,
        hl, hr, hls, hrs, Bind.bind, Except.bind, Except.isOk, Except.toBool]

/-- Witness for the amended C4 at the nodes 6 and 3: the constructed
Divide node evaluates and renders without raising. -/
theorem constructed_nodes_evaluate_and_render_at_six_three :
    (resultOf (Divide nodeSix.toOperand nodeThree.toOperand)).isOk = true ∧
    (renderOf (Divide nodeSix.toOperand nodeThree.toOperand)).isOk = true := by
  have hd := Divide_on_nodes nodeSix nodeThree (.fin 3) rfl (by norm_num)
  have h := (constructed_nodes_evaluate_and_render nodeSix nodeThree
    (.fin 6) (.fin 3) "6" "3" rfl rfl rfl rfl).2.2.2 _ hd
  rw [hd]
  simp only [resultOf, renderOf]
  exact ⟨h.2.1, h.2.2⟩

/-- Claim C6: every binary node renders as the fully parenthesized infix
string "(" + left.render() + " " + symbol + " " + right.render() + ")",
with symbols "+", "-", lowercase "x" and the Unicode division sign "÷". -/
theorem binary_render_fully_parenthesized
    (l r : NodeObj) (s t : String)
    (hls : l.toStr () = Except.ok s) (hrs : r.toStr () = Except.ok t) :
    (∀ n, Add l.toOperand r.toOperand = Except.ok n →
      n.toStr () = Except.ok ("(" ++ s ++ " " ++ "+" ++ " " ++ t ++ ")")) ∧
    (∀ n, Subtract l.toOperand r.toOperand = Except.ok n →
      n.toStr () = Except.ok ("(" ++ s ++ " " ++ "-" ++ " " ++ t ++ ")")) ∧
    (∀ n, Multiply l.toOperand r.toOperand = Except.ok n →
      n.toStr () = Except.ok ("(" ++ s ++ " " ++ "x" ++ " " ++ t ++ ")")) ∧
    (∀ n, Divide l.toOperand r.toOperand = Except.ok n →
      n.toStr () = Except.ok ("(" ++ s ++ " " ++ "÷" ++ " " ++ t ++ ")")) := by
  refine ⟨fun n h => ?_, fun n h => ?_, fun n h => ?_, fun n h => ?_⟩
  · rw [Add_ok_shape _ _ _ h]
    simp [printExpression, callToString_toOperand, hls, hrs, Bind.bind, Except.bind]
  · rw [Subtract_ok_shape _ _ _ h]
    simp [printExpression, callToString_toOperand, hls, hrs, Bind.bind, Except.bind]
  · rw [Multiply_ok_shape _ _ _ h]
    simp [printExpression, callToString_toOperand, hls, hrs, Bind.bind, Except.bind]
  · rw [Divide_ok_shape _ _ _ h]
    simp [printExpression, callToString_toOperand, hls, hrs, Bind.bind, Except.bind]

/-- Witness for C6 at the nodes 6 and 3: the four rendered forms. -/
theorem binary_render_fully_parenthesized_at_six_three :
    renderOf (Add nodeSix.toOperand nodeThree.toOperand) =
      Except.ok ("(" ++ "6" ++ " " ++ "+" ++ " " ++ "3" ++ ")") ∧
    renderOf (Subtract nodeSix.toOperand nodeThree.toOperand) =
      Except.ok ("(" ++ "6" ++ " " ++ "-" ++ " " ++ "3" ++ ")") ∧
    renderOf (Multiply nodeSix.toOperand nodeThree.toOperand) =
      Except.ok ("(" ++ "6" ++ " " ++ "x" ++ " " ++ "3" ++ ")") ∧
    renderOf (Divide nodeSix.toOperand nodeThree.toOperand) =
      Except.ok ("(" ++ "6" ++ " " ++ "÷" ++ " " ++ "3" ++ ")") := by
  have h := binary_render_fully_parenthesized nodeSix nodeThree "6" "3" rfl rfl
  have hd := Divide_on_nodes nodeSix nodeThree (.fin 3) rfl (by norm_num)
  refine ⟨?_, ?_, ?_, ?_⟩
  · rw [Add_on_nodes nodeSix nodeThree]
    simp only [renderOf]
    exact h.1 _ (Add_on_nodes nodeSix nodeThree)
  · rw [Subtract_on_nodes nodeSix nodeThree]
    simp only [renderOf]
    exact h.2.1 _ (Subtract_on_nodes nodeSix nodeThree)
  · rw [Multiply_on_nodes nodeSix nodeThree]
    simp only [renderOf]
    exact h.2.2.1 _ (Multiply_on_nodes nodeSix nodeThree)
  · rw [hd]
    simp only [renderOf]
    exact h.2.2.2 _ hd

/-- Claim C9: evaluation and rendering are pure and deterministic.  Two calls
to the same closure are equal, and the behaviour of a constructed node
is a function only of the operand values captured at construction; the
node record itself is an immutable value, so no call changes any
attribute of it or its children. -/
theorem node_operations_pure_deterministic (l r : Operand) (v : JSVal) :
    (∀ n, Value v = Except.ok n →
      n.res () = n.res () ∧ n.toStr () = n.toStr ()) ∧
    (∀ n, Add l r = Except.ok n →
      n.res () = n.res () ∧ n.toStr () = n.toStr () ∧
      n.res () = (do
        let a ← callResult l
        let b ← callResult r
        Except.ok (jsAdd a b)) ∧
      n.toStr () = printExpression l r "+") ∧
    (∀ n, Subtract l r = Except.ok n →
      n.res () = (do
        let a ← callResult l
        let b ← callResult r
        Except.ok (jsSub a b)) ∧
      n.toStr () = printExpression l r "-") ∧
    (∀ n, Multiply l r = Except.ok n →
      n.res () = (do
        let a ← callResult l
        let b ← callResult r
        Except.ok (jsMul a b)) ∧
      n.toStr () = printExpression l r "x") ∧
    (∀ n, Divide l r = Except.ok n →
      n.res () = (do
        let a ← callResult l
        let b ← callResult r
        Except.ok (jsDiv a b)) ∧
      n.toStr () = printExpression l r "÷") := by
  refine ⟨fun n _ => ⟨rfl, rfl⟩, fun n h => ?_, fun n h => ?_, fun n h => ?_, fun n h => ?_⟩
  · rw [Add_ok_shape _ _ _ h]
    exact ⟨rfl, rfl, rfl, rfl⟩
  · rw [Subtract_ok_shape _ _ _ h]
    exact ⟨rfl, rfl⟩
  · rw [Multiply_ok_shape _ _ _ h]
    exact ⟨rfl, rfl⟩
  · rw [Divide_ok_shape _ _ _ h]
    exact ⟨rfl, rfl⟩

/-- Witness for C9 at the nodes 6 and 3: repeated evaluation of the
concrete Add node is equal and its behaviour is a function of the two
captured operand closures. -/
theorem node_operations_pure_deterministic_at_six_three :
    resultOf (Add nodeSix.toOperand nodeThree.toOperand) =
      resultOf (Add nodeSix.toOperand nodeThree.toOperand) ∧
    resultOf (Add nodeSix.toOperand nodeThree.toOperand) = (do
        let a ← callResult nodeSix.toOperand
        let b ← callResult nodeThree.toOperand
        Except.ok (jsAdd a b)) ∧
    renderOf (Add nodeSix.toOperand nodeThree.toOperand) =
      printExpression nodeSix.toOperand nodeThree.toOperand "+" := by
  have ha := Add_on_nodes nodeSix nodeThree
  have h := (node_operations_pure_deterministic nodeSix.toOperand
    nodeThree.toOperand (.num (.fin 1))).2.1 _ ha
  exact ⟨h.1, h.2.2.1, h.2.2.2⟩

/-- Claim C10: constructing Add, Subtract or Multiply never invokes the
operands' result or toString closures — construction succeeds even when
every such invocation would throw; Divide never invokes left.result()
(construction succeeds while left's result closure would throw) and
invokes right.toString() only when right.result() is the number 0, in
which case the toString outcome (here: its thrown error) surfaces. -/
theorem construction_invokes_no_operand_operations
    (el er : JsError) (tl tr : ToStrProp)
    (g : Unit → Except JsError JSNum) (b : JSNum)
    (hg : g () = Except.ok b) (hb : b ≠ .fin 0) :
    (Add (.obj (.fn fun _ => .error el) tl) (.obj (.fn fun _ => .error er) tr)).isOk
      = true ∧
    (Subtract (.obj (.fn fun _ => .error el) tl) (.obj (.fn fun _ => .error er) tr)).isOk
      = true ∧
    (Multiply (.obj (.fn fun _ => .error el) tl) (.obj (.fn fun _ => .error er) tr)).isOk
      = true ∧
    (Divide (.obj (.fn fun _ => .error el) tl)
      (.obj (.fn g) (.fn fun _ => .error er))).isOk = true ∧
    Divide (.obj (.fn fun _ => .error el) tl)
      (.obj (.fn fun _ => .ok (.fin 0)) (.fn fun _ => .error er)) = Except.error er := by
  refine ⟨rfl, rfl, rfl, ?_, rfl⟩
  simp [Divide, makeDivide, validateDivide, validateExpression, hasTruthyResult,
    callResult, hg, hb, Bind.bind, Except.bind, Except.isOk, Except.toBool]

/-- Witness for C10: concrete throwing closures; the divisor evaluates
to NaN, which the strict !==-0 check lets through. -/
theorem construction_invokes_no_operand_operations_concrete :
    (Add (.obj (.fn fun _ => .error .typeError) .inherited)
      (.obj (.fn fun _ => .error (.errorMsg "boom")) .inherited)).isOk = true ∧
    (Subtract (.obj (.fn fun _ => .error .typeError) .inherited)
      (.obj (.fn fun _ => .error (.errorMsg "boom")) .inherited)).isOk = true ∧
    (Multiply (.obj (.fn fun _ => .error .typeError) .inherited)
      (.obj (.fn fun _ => .error (.errorMsg "boom")) .inherited)).isOk = true ∧
    (Divide (.obj (.fn fun _ => .error .typeError) .inherited)
      (.obj (.fn fun _ => .ok .nan) (.fn fun _ => .error (.errorMsg "boom")))).isOk
      = true ∧
    Divide (.obj (.fn fun _ => .error .typeError) .inherited)
      (.obj (.fn fun _ => .ok (.fin 0)) (.fn fun _ => .error (.errorMsg "boom"))) =
      Except.error (.errorMsg "boom") :=
  construction_invokes_no_operand_operations .typeError (.errorMsg "boom")
    .inherited .inherited (fun _ => .ok .nan) .nan rfl (by simp)

/-- Witness for C5 at the literal 7. -/
theorem literal_evaluates_and_renders_at_seven :
    ∃ n, Value (.num (.fin 7)) = Except.ok n ∧
      n.res () = .ok (.fin 7) ∧
      n.toStr () = .ok (jsNumToString (.fin 7)) :=
  literal_evaluates_and_renders 7

/-- Witness for C7 at the string "abc" (as in the repository tests). -/
theorem literal_invalid_at_abc :
    Value (.str "abc") = Except.error (.errorMsg
      ("The value \"" ++ jsValToString (.str "abc") ++ "\" is not a numerical value!")) :=
  (literal_invalid_iff_not_finite_number (.str "abc")).1.mpr rfl

end SolidAst
